import Mathlib

set_option maxRecDepth 16384

/-!
Shallow embedding of the closure/traffic list logic of the Parks repository
(`src/components/ClosureList.tsx`) and of the parks proxy route handler
(`src/unnamed/part_006`), together with proofs about the claims made by the
specification.

Modelling conventions:
* JavaScript strings are Lean `String`; `.length`, `.slice` and friends count
  characters (the source data is ASCII, so UTF-16 code-unit counts agree).
* An optional / possibly-`undefined` JS field is `Option String`; JS truthiness
  of such a field ("undefined", "null" and the empty string are falsy) is the
  boolean `jsTruthy`.
* Exceptions are explicit: `JSON.parse` is an arbitrary parameter of type
  `String → Except String α` (it may fail); every `try/catch` of the source
  turns the `Except` into an `Option`.
* The ambient mutable `neighbourhoodCache` and the network are made explicit:
  the resolver takes the current cache and the outcomes of the (up to) two
  fallback requests and returns the name, the new cache and the number of
  requests it issued.
* `Array.prototype.sort` (a stable sort by a comparator) is modelled by
  `List.insertionSort`, which is stable and produces a sorted permutation.
-/

/- =========================  JS string helpers  ========================= -/

/-- JS truthiness of an optional string field: `undefined` and `""` are falsy. -/
def jsTruthy : Option String → Bool
  | some s => s != ""
  | none => false

/-- JS `a || b` for an optional string `a` and a string default `b`. -/
def jsOr (o : Option String) (d : String) : String :=
  match o with
  | some s => if s = "" then d else s
  | none => d

/-- JS `a ?? b` (nullish coalescing) for an optional string with default `""`. -/
def jsCoalesce (o : Option String) : String := o.getD ""

/-- JS `String.prototype.trim`, written over the character list. -/
def jsTrim (s : String) : String :=
  ⟨((s.data.dropWhile Char.isWhitespace).reverse.dropWhile Char.isWhitespace).reverse⟩

/-- JS `String.prototype.toLowerCase` (ASCII, as in the source data). -/
def jsToLower (s : String) : String := ⟨s.data.map Char.toLower⟩

/-- JS `String.prototype.slice(0, n)`. -/
def jsSlice (s : String) (n : Nat) : String := ⟨s.data.take n⟩

/- =========================  Row shapes  ========================= -/

/-- The `GeometryLike` union of the source: `GeoJsonObject | string | null |
undefined`, with the GeoJSON object type left abstract as `α`. -/
inductive GeometryLike (α : Type) where
  | undef : GeometryLike α
  | jnull : GeometryLike α
  | str (s : String) : GeometryLike α
  | obj (g : α) : GeometryLike α
deriving DecidableEq

/-- The object alternative of the `PointLike` union.  Numeric field values are
stored in their JS `String(·)` rendering, which is all the source ever uses. -/
structure PointObj where
  type : Option String := none
  coordinates : Option (List String) := none
  latitude : Option String := none
  longitude : Option String := none
deriving DecidableEq

/-- The `PointLike` union of the source: `string | {…} | null | undefined`. -/
inductive PointLike where
  | undef : PointLike
  | jnull : PointLike
  | str (s : String) : PointLike
  | obj (o : PointObj) : PointLike
deriving DecidableEq

/-- JS truthiness of a `PointLike` value: objects are truthy, `""`, `null` and
`undefined` are falsy. -/
def jsTruthyPoint : PointLike → Bool
  | .undef => false
  | .jnull => false
  | .str s => s != ""
  | .obj _ => true

/-- A raw trail row (`TrailRow` of the source, `BaseRow` fields inlined). -/
structure TrailRow (α : Type) where
  infrastructure : Option String := none
  location_name : Option String := none
  start_date : Option String := none
  end_date : Option String := none
  duration : Option String := none
  latitude : Option String := none
  longitude : Option String := none
  geometry : GeometryLike α := .undef
  the_geom : GeometryLike α := .undef
  activity_type : Option String := none
  type_of_closure : Option String := none
  details : Option String := none
deriving DecidableEq

/-- A raw traffic row (`TrafficRow` of the source, `BaseRow` fields inlined). -/
structure TrafficRow (α : Type) where
  infrastructure : Option String := none
  location_name : Option String := none
  start_date : Option String := none
  end_date : Option String := none
  duration : Option String := none
  latitude : Option String := none
  longitude : Option String := none
  geometry : GeometryLike α := .undef
  the_geom : GeometryLike α := .undef
  status : Option String := none
  description : Option String := none
  activity_type : Option String := none
  type_of_closure : Option String := none
  point : PointLike := .undef
deriving DecidableEq

/- =========================  parseGeom  ========================= -/

/-- `parseGeom` of the source.  `jp` models `JSON.parse`, which may fail; the
`try/catch` of the source turns a parse failure into `null`.  A falsy input
(`null`, `undefined`, `""`) yields `null` immediately. -/
def parseGeom {α : Type} (jp : String → Except String α) : GeometryLike α → Option α
  | .undef => none
  | .jnull => none
  | .str s => if s = "" then none else (jp s).toOption
  | .obj g => some g

/- =========================  parseTrafficPoint  ========================= -/

/-- Fractional part of the JS regex `-?\d+(\.\d+)?`: a dot followed by at
least one digit, taken greedily; returns the matched characters and the rest. -/
def matchFrac (cs : List Char) : List Char × List Char :=
  match cs with
  | '.' :: rest =>
    let ds := rest.takeWhile Char.isDigit
    if ds.isEmpty then ([], cs) else ('.' :: ds, rest.dropWhile Char.isDigit)
  | _ => ([], cs)

/-- One attempted match of `-?\d+(\.\d+)?` at the head of the input:
`some (token, rest)` on success, `none` when the regex cannot match here. -/
def matchNum : List Char → Option (List Char × List Char)
  | [] => none
  | c :: cs =>
    if c.isDigit then
      let ds := (c :: cs).takeWhile Char.isDigit
      let r1 := (c :: cs).dropWhile Char.isDigit
      let fr := matchFrac r1
      some (ds ++ fr.1, fr.2)
    else if c = '-' then
      match cs with
      | [] => none
      | d :: _ =>
        if d.isDigit then
          let ds := cs.takeWhile Char.isDigit
          let r1 := cs.dropWhile Char.isDigit
          let fr := matchFrac r1
          some ('-' :: (ds ++ fr.1), fr.2)
        else none
    else none

/-- Global scan of `-?\d+(\.\d+)?` (global): try to match at each position, emit the
token and continue after it, otherwise advance one character.  The fuel is the
input length, which every step strictly decreases by at least one. -/
def scanNums : Nat → List Char → List (List Char)
  | 0, _ => []
  | _, [] => []
  | fuel + 1, c :: cs =>
    match matchNum (c :: cs) with
    | some (tok, rest) => tok :: scanNums fuel rest
    | none => scanNums fuel cs

/-- `point.match(regex `-?\d+(\.\d+)?`, global)` of the source, as a list of token strings
(`[]` plays the role of the `null` result). -/
def jsNumTokens (s : String) : List String :=
  (scanNums s.data.length s.data).map fun cs => ⟨cs⟩

/-- The result shape `{ lat?: string; lon?: string }` of `parseTrafficPoint`. -/
structure LatLon where
  lat : Option String := none
  lon : Option String := none
deriving DecidableEq

/-- `parseTrafficPoint` of the source: parse lon/lat from the traffic `point`
field.  The first numeric token of a string is the longitude, the second the
latitude; a `coordinates` array is `[lon, lat]`; explicit `latitude`/
`longitude` fields are used as given. -/
def parseTrafficPoint : PointLike → LatLon
  | .undef => {}
  | .jnull => {}
  | .str s =>
    if s = "" then {}
    else
      match jsNumTokens s with
      | lon :: lat :: _ => { lat := some lat, lon := some lon }
      | _ => {}
  | .obj o =>
    match o.coordinates with
    | some (lon :: lat :: _) => { lat := some lat, lon := some lon }
    | _ =>
      match o.latitude, o.longitude with
      | some la, some lo => { lat := some la, lon := some lo }
      | _, _ => {}

/- =========================  traffic row enrichment  ========================= -/

/-- The per-row enrichment of `load` for the traffic dataset: when latitude or
longitude is missing/empty and a `point` value is present, fill both from
`parseTrafficPoint`, otherwise keep the row's own fields. -/
def enrichTraffic {α : Type} (r : TrafficRow α) : TrafficRow α :=
  if (!jsTruthy r.latitude || !jsTruthy r.longitude) && jsTruthyPoint r.point then
    let p := parseTrafficPoint r.point
    if jsTruthy p.lat && jsTruthy p.lon then
      { r with latitude := p.lat, longitude := p.lon }
    else
      { r with latitude := r.latitude, longitude := r.longitude }
  else
    { r with latitude := r.latitude, longitude := r.longitude }

/-- `data.map(...)` of `load` for the traffic dataset. -/
def loadTraffic {α : Type} (rows : List (TrafficRow α)) : List (TrafficRow α) :=
  rows.map enrichTraffic

/- =========================  dedupe + sort  ========================= -/

/-- The dedupe loop of the `items` memo, with the `seen` set of keys made
explicit as a list. -/
def dedupeByGo {ρ : Type} (key : ρ → String) (seen : List String) :
    List ρ → List ρ
  | [] => []
  | r :: rs =>
    let k := key r
    if k ∈ seen then dedupeByGo key seen rs
    else r :: dedupeByGo key (k :: seen) rs

/-- Dedupe a row list by a string key, keeping first occurrences. -/
def dedupeBy {ρ : Type} (key : ρ → String) (rows : List ρ) : List ρ :=
  dedupeByGo key [] rows

/-- The comparator of the `items` memo, as a relation: the source sorts with
`String(a.f || "").toLowerCase().localeCompare(String(b.f || "").toLowerCase())`,
modelled as lexicographic order on the lower-cased sort keys. -/
def keyLE {ρ : Type} (skey : ρ → String) (a b : ρ) : Prop := skey a ≤ skey b

instance {ρ : Type} (skey : ρ → String) : DecidableRel (keyLE skey) :=
  fun a b => inferInstanceAs (Decidable (skey a ≤ skey b))

instance {ρ : Type} (skey : ρ → String) : IsTotal ρ (keyLE skey) :=
  ⟨fun a b => le_total (skey a) (skey b)⟩

instance {ρ : Type} (skey : ρ → String) : IsTrans ρ (keyLE skey) :=
  ⟨fun _ _ _ h h' => le_trans h h'⟩

/-- The dedupe key of a trail row: `(r.details || "").trim().toLowerCase()`. -/
def trailDKey {α : Type} (r : TrailRow α) : String :=
  jsToLower (jsTrim (jsOr r.details ""))

/-- The sort key of a trail row: `String(r.details || "").toLowerCase()`. -/
def trailSKey {α : Type} (r : TrailRow α) : String :=
  jsToLower (jsOr r.details "")

/-- The dedupe key of a traffic row:
`(r.description || "").trim().toLowerCase()`. -/
def trafficDKey {α : Type} (r : TrafficRow α) : String :=
  jsToLower (jsTrim (jsOr r.description ""))

/-- The sort key of a traffic row:
`String(r.description || "").toLowerCase()`. -/
def trafficSKey {α : Type} (r : TrafficRow α) : String :=
  jsToLower (jsOr r.description "")

/-- The `items` memo for the trail dataset: dedupe by the trimmed lower-cased
`details`, then sort (stably) by the lower-cased `details`. -/
def itemsTrail {α : Type} (rows : List (TrailRow α)) : List (TrailRow α) :=
  List.insertionSort (keyLE trailSKey) (dedupeBy trailDKey rows)

/-- The `items` memo for the traffic dataset: dedupe by the trimmed lower-cased
`description`, then sort (stably) by the lower-cased `description`. -/
def itemsTraffic {α : Type} (rows : List (TrafficRow α)) : List (TrafficRow α) :=
  List.insertionSort (keyLE trafficSKey) (dedupeBy trafficDKey rows)

/- =========================  end-date display  ========================= -/

/-- The sentinel `NO_LOC` of the source. -/
def NO_LOC : String := "N/A"

/-- `endDisplay` of the render body:
`r.end_date ? "N/A" : (r.duration || "N/A")`. -/
def endDisplay (end_date duration : Option String) : String :=
  if jsTruthy end_date then "N/A" else jsOr duration "N/A"

/- =========================  card rendering  ========================= -/

/-- `r.geometry ?? r.the_geom` (nullish coalescing on geometry values). -/
def geomCoalesce {α : Type} (a b : GeometryLike α) : GeometryLike α :=
  match a with
  | .undef => b
  | .jnull => b
  | x => x

/-- The display fields the list view computes for one card (the body of the
`.map` over the rows of the selected dataset). -/
structure Card (α : Type) where
  lat : String
  lon : String
  title : String
  activityType : String
  typeOfClosure : String
  endDate : String
  geom : Option α
  isPermanent : Bool
  longText : String
  keyStr : String
  isExpanded : Bool
  shown : String
  hasToggle : Bool

/-- The card construction shared by both row variants, translated line by line
from the render body of `ClosureList`; `nn` is the `neighNames` state, `ex`
the `expanded` state and `idx` the positional index. -/
def mkCard {α : Type} (jp : String → Except String α)
    (nn : String → Option String) (ex : String → Bool) (idx : Nat)
    (infrastructure location_name start_date end_date duration
      latitude longitude : Option String)
    (activity_type type_of_closure : Option String)
    (geometry the_geom : GeometryLike α) (longText : String) : Card α :=
  let lat := jsTrim (jsOr latitude "")
  let lon := jsTrim (jsOr longitude "")
  let hasCoords := lat != "" && lon != ""
  let infra := jsOr (some (jsTrim (jsOr infrastructure ""))) "Infrastructure"
  let locRaw := jsTrim (jsOr location_name "")
  let neighKey := if hasCoords then lat ++ "," ++ lon else ""
  let neigh := if neighKey != "" then nn neighKey else none
  let locDisplay := jsOr (some locRaw) (jsOr neigh NO_LOC)
  let title := infra ++ " – " ++ locDisplay
  let keyStr := title ++ "-" ++ jsCoalesce start_date ++ "-" ++ toString idx
  let isExpanded := ex keyStr
  { lat := lat
    lon := lon
    title := title
    activityType := jsOr activity_type "N/A"
    typeOfClosure := jsOr type_of_closure "N/A"
    endDate := endDisplay end_date duration
    geom := parseGeom jp (geomCoalesce geometry the_geom)
    isPermanent := jsToLower (jsOr type_of_closure "") == "permanent"
    longText := longText
    keyStr := keyStr
    isExpanded := isExpanded
    shown :=
      if !isExpanded && decide (longText.length > 220) then
        jsTrim (jsSlice longText 220) ++ "…"
      else longText
    hasToggle := decide (longText.length > 220) }

/-- The card computed for a trail row (`kind === "trail"`, so the long text is
`r.details || ""`). -/
def cardOfTrail {α : Type} (jp : String → Except String α)
    (nn : String → Option String) (ex : String → Bool) (idx : Nat)
    (r : TrailRow α) : Card α :=
  mkCard jp nn ex idx r.infrastructure r.location_name r.start_date r.end_date
    r.duration r.latitude r.longitude r.activity_type r.type_of_closure
    r.geometry r.the_geom (jsOr r.details "")

/-- The card computed for a traffic row (`kind === "traffic"`, so the long
text is `r.description || ""`). -/
def cardOfTraffic {α : Type} (jp : String → Except String α)
    (nn : String → Option String) (ex : String → Bool) (idx : Nat)
    (r : TrafficRow α) : Card α :=
  mkCard jp nn ex idx r.infrastructure r.location_name r.start_date r.end_date
    r.duration r.latitude r.longitude r.activity_type r.type_of_closure
    r.geometry r.the_geom (jsOr r.description "")

/-- The list view for the trail dataset.  Faithful to the source: the render
maps over the RAW `trailRows`, not over the deduplicated `items` memo. -/
def renderTrailCards {α : Type} (jp : String → Except String α)
    (nn : String → Option String) (ex : String → Bool)
    (rows : List (TrailRow α)) : List (Card α) :=
  rows.enum.map fun p => cardOfTrail jp nn ex p.1 p.2

/-- The list view for the traffic dataset (again over the raw rows). -/
def renderTrafficCards {α : Type} (jp : String → Except String α)
    (nn : String → Option String) (ex : String → Bool)
    (rows : List (TrafficRow α)) : List (Card α) :=
  rows.enum.map fun p => cardOfTraffic jp nn ex p.1 p.2

/-- `toggleExpand` of the source:
`setExpanded(prev => ({ ...prev, [key]: !prev[key] }))`. -/
def toggleExpand (ex : String → Bool) (k : String) : String → Bool :=
  fun k2 => if k2 == k then !(ex k) else ex k2

/- =========================  reverse-geocode resolver  ========================= -/

/-- One row of the neighbourhood-boundary dataset. -/
structure GeoRow where
  descriptive_name : Option String := none
deriving DecidableEq

/-- The outcome of one `fetch` of a neighbourhood query: a network exception,
a non-ok response, or an ok response with its JSON rows. -/
inductive FetchOutcome where
  | err : FetchOutcome
  | notOk : FetchOutcome
  | ok (rows : List GeoRow) : FetchOutcome
deriving DecidableEq

/-- The `neighbourhoodCache`, made explicit as an association list; JS
assignment prepends (lookup finds the newest binding first). -/
def Cache : Type := List (String × String)

/-- `neighbourhoodCache[key]` (as an `Option`). -/
def cacheGet (c : Cache) (k : String) : Option String :=
  List.lookup k c

/-- `neighbourhoodCache[key] = v`. -/
def cacheSet (c : Cache) (k v : String) : Cache :=
  (k, v) :: c

/-- What the body of the `for` loop extracts from one query outcome:
`js?.[0]?.descriptive_name?.trim()` when the response is ok, kept only if
truthy (non-empty); a network error or non-ok response yields nothing. -/
def queryName (o : FetchOutcome) : Option String :=
  match o with
  | .ok rows =>
    match rows.head? with
    | some row =>
      match row.descriptive_name with
      | some n => if jsTrim n = "" then none else some (jsTrim n)
      | none => none
    | none => none
  | _ => none

/-- `fetchNeighbourhoodName` of the source, with the ambient cache and the
network made explicit: `o1`/`o2` are the outcomes the two fallback queries
would deliver.  Returns the resolved name, the updated cache and the number of
requests actually issued. -/
def fetchNeighbourhoodName (c : Cache) (lat lon : String)
    (o1 o2 : FetchOutcome) : String × Cache × Nat :=
  let key := lat ++ "," ++ lon
  let miss : String × Cache × Nat :=
    match queryName o1 with
    | some n => (n, cacheSet c key n, 1)
    | none =>
      match queryName o2 with
      | some n => (n, cacheSet c key n, 2)
      | none => (NO_LOC, cacheSet c key NO_LOC, 2)
  match cacheGet c key with
  | some v => if v = "" then miss else (v, c, 0)
  | none => miss

/- =========================  /api/parks proxy  ========================= -/

/-- Body of a proxy response: a plain-text error string or a JSON value. -/
inductive ProxyBody (α : Type) where
  | text (s : String) : ProxyBody α
  | json (v : α) : ProxyBody α
deriving DecidableEq

/-- What the upstream `fetch` of the route handler delivers: a network
exception, or a response with its `ok` flag and the result of `resp.json()`
(which itself may fail on a non-JSON body). -/
def Upstream (α : Type) : Type := Except String (Bool × Except String α)

/-- The `GET` route handler of `src/unnamed/part_006`: forward the upstream
JSON with status 200, answer 500 with a plain-text body on a non-ok upstream
response ("Fetch error") or on any thrown exception ("Server error"). -/
def GETparks {α : Type} (upstream : Upstream α) : Nat × ProxyBody α :=
  match upstream with
  | .error _ => (500, .text "Server error")
  | .ok (isOk, body) =>
    if isOk then
      match body with
      | .error _ => (500, .text "Server error")
      | .ok v => (200, .json v)
    else (500, .text "Fetch error")

/- =========================  helper lemmas  ========================= -/

lemma endDisplay_of_truthy (e d : Option String) (h : jsTruthy e = true) :
    endDisplay e d = "N/A" := by
  simp [endDisplay, h]

lemma endDisplay_of_falsy_some (e : Option String) (d : String)
    (h : jsTruthy e = false) (hd : d ≠ "") :
    endDisplay e (some d) = d := by
  simp [endDisplay, h, jsOr, hd]

lemma endDisplay_of_falsy_falsy (e d : Option String)
    (h : jsTruthy e = false) (h2 : jsTruthy d = false) :
    endDisplay e d = "N/A" := by
  cases d with
  | none => simp [endDisplay, h, jsOr]
  | some s =>
    have hs : s = "" := by
      by_contra hne
      simp [jsTruthy, hne] at h2
    simp [endDisplay, h, jsOr, hs]

lemma cardOfTrail_endDate {α : Type} (jp : String → Except String α)
    (nn : String → Option String) (ex : String → Bool) (idx : Nat)
    (r : TrailRow α) :
    (cardOfTrail jp nn ex idx r).endDate = endDisplay r.end_date r.duration := rfl

lemma cardOfTraffic_endDate {α : Type} (jp : String → Except String α)
    (nn : String → Option String) (ex : String → Bool) (idx : Nat)
    (r : TrafficRow α) :
    (cardOfTraffic jp nn ex idx r).endDate = endDisplay r.end_date r.duration := rfl

/- =========================  C3  ========================= -/

/-- C3: the rendered end-date field is `"N/A"` whenever a (truthy) explicit
end date is present, regardless of its value; when the end date is absent it
falls back to a present `duration` string, and to `"N/A"` when both are
absent — for both the trail and the traffic card. -/
theorem end_date_display_policy {α : Type} (jp : String → Except String α)
    (nn : String → Option String) (ex : String → Bool) (idx : Nat)
    (r : TrailRow α) (r2 : TrafficRow α) :
    (jsTruthy r.end_date = true → (cardOfTrail jp nn ex idx r).endDate = "N/A") ∧
    (jsTruthy r.end_date = false → ∀ d : String, r.duration = some d → d ≠ "" →
      (cardOfTrail jp nn ex idx r).endDate = d) ∧
    (jsTruthy r.end_date = false → jsTruthy r.duration = false →
      (cardOfTrail jp nn ex idx r).endDate = "N/A") ∧
    (jsTruthy r2.end_date = true → (cardOfTraffic jp nn ex idx r2).endDate = "N/A") ∧
    (jsTruthy r2.end_date = false → ∀ d : String, r2.duration = some d → d ≠ "" →
      (cardOfTraffic jp nn ex idx r2).endDate = d) ∧
    (jsTruthy r2.end_date = false → jsTruthy r2.duration = false →
      (cardOfTraffic jp nn ex idx r2).endDate = "N/A") := by
  refine ⟨fun h => ?_, fun h d hd hne => ?_, fun h h2 => ?_,
    fun h => ?_, fun h d hd hne => ?_, fun h h2 => ?_⟩
  · rw [cardOfTrail_endDate, endDisplay_of_truthy _ _ h]
  · rw [cardOfTrail_endDate, hd, endDisplay_of_falsy_some _ _ h hne]
  · rw [cardOfTrail_endDate, endDisplay_of_falsy_falsy _ _ h h2]
  · rw [cardOfTraffic_endDate, endDisplay_of_truthy _ _ h]
  · rw [cardOfTraffic_endDate, hd, endDisplay_of_falsy_some _ _ h hne]
  · rw [cardOfTraffic_endDate, endDisplay_of_falsy_falsy _ _ h h2]

/-- Witness for C3 at concrete records: an end date of `"2025-12-31"` renders
as `"N/A"`, an absent end date with duration `"3 weeks"` renders as
`"3 weeks"`, and both absent renders as `"N/A"`. -/
theorem end_date_display_policy_witness :
    (cardOfTrail (fun _ => (Except.error "" : Except String Unit)) (fun _ => none)
      (fun _ => false) 0
      { end_date := some "2025-12-31", duration := some "3 weeks" }).endDate = "N/A" ∧
    (cardOfTrail (fun _ => (Except.error "" : Except String Unit)) (fun _ => none)
      (fun _ => false) 0 { duration := some "3 weeks" }).endDate = "3 weeks" ∧
    (cardOfTrail (fun _ => (Except.error "" : Except String Unit)) (fun _ => none)
      (fun _ => false) 0 ({} : TrailRow Unit)).endDate = "N/A" := by
  refine ⟨?_, ?_, ?_⟩
  · exact (end_date_display_policy _ _ _ 0 _ ({} : TrafficRow Unit)).1 (by decide)
  · exact (end_date_display_policy _ _ _ 0 _ ({} : TrafficRow Unit)).2.1 (by decide)
      "3 weeks" rfl (by decide)
  · exact (end_date_display_policy _ _ _ 0 _ ({} : TrafficRow Unit)).2.2.1 (by decide)
      (by decide)

/- =========================  C2  ========================= -/

/-- C2: the point/geometry normalizers are total — on every input class
(`undefined`, `null`, object, well-formed string, malformed string) they
return either a valid value (a geometry object, resp. a pair with both
coordinates present) or an explicit absence value (`null`, resp. the empty
result), and never an exception: a `JSON.parse` failure is absorbed into the
absence result. -/
theorem point_geometry_normalizer_total {α : Type} (jp : String → Except String α) :
    (parseGeom jp .undef = none) ∧
    (parseGeom jp .jnull = none) ∧
    (∀ g : α, parseGeom jp (.obj g) = some g) ∧
    (∀ s : String, s ≠ "" → ∀ g : α, jp s = .ok g →
      parseGeom jp (.str s) = some g) ∧
    (∀ s e : String, jp s = .error e → parseGeom jp (.str s) = none) ∧
    (∀ p : PointLike,
      parseTrafficPoint p = { lat := none, lon := none } ∨
      ∃ la lo : String, parseTrafficPoint p = { lat := some la, lon := some lo }) := by
  refine ⟨rfl, rfl, fun g => rfl, fun s hs g hj => ?_, fun s e hj => ?_, fun p => ?_⟩
  · simp [parseGeom, hs, hj, Except.toOption]
  · by_cases hs : s = ""
    · simp [parseGeom, hs]
    · simp [parseGeom, hs, hj, Except.toOption]
  · cases p with
    | undef => exact Or.inl rfl
    | jnull => exact Or.inl rfl
    | str s =>
      by_cases hs : s = ""
      · exact Or.inl (by simp [parseTrafficPoint, hs])
      · rcases h : jsNumTokens s with _ | ⟨a, tl⟩
        · exact Or.inl (by simp [parseTrafficPoint, hs, h])
        · rcases tl with _ | ⟨b, tl2⟩
          · exact Or.inl (by simp [parseTrafficPoint, hs, h])
          · exact Or.inr ⟨b, a, by simp [parseTrafficPoint, hs, h]⟩
    | obj o =>
      rcases o with ⟨t, co, la, lo⟩
      rcases co with _ | l
      · rcases la with _ | la0
        · exact Or.inl (by simp [parseTrafficPoint])
        · rcases lo with _ | lo0
          · exact Or.inl (by simp [parseTrafficPoint])
          · exact Or.inr ⟨la0, lo0, by simp [parseTrafficPoint]⟩
      · rcases l with _ | ⟨x, xs⟩
        · rcases la with _ | la0
          · exact Or.inl (by simp [parseTrafficPoint])
          · rcases lo with _ | lo0
            · exact Or.inl (by simp [parseTrafficPoint])
            · exact Or.inr ⟨la0, lo0, by simp [parseTrafficPoint]⟩
        · rcases xs with _ | ⟨y, ys⟩
          · rcases la with _ | la0
            · exact Or.inl (by simp [parseTrafficPoint])
            · rcases lo with _ | lo0
              · exact Or.inl (by simp [parseTrafficPoint])
              · exact Or.inr ⟨la0, lo0, by simp [parseTrafficPoint]⟩
          · exact Or.inr ⟨y, x, by simp [parseTrafficPoint]⟩

/-- Witness for C2: a parse success yields the parsed object, a parse failure
yields the absence value. -/
theorem point_geometry_normalizer_total_witness :
    parseGeom (fun s => if s = "[1]" then Except.ok () else Except.error "bad")
      (.str "[1]") = some () ∧
    parseGeom (fun s => if s = "[1]" then Except.ok () else Except.error "bad")
      (.str "oops") = none := by
  constructor
  · exact (point_geometry_normalizer_total _).2.2.2.1 "[1]" (by decide) ()
      (by simp)
  · exact (point_geometry_normalizer_total _).2.2.2.2.1 "oops" "bad" (by simp)

/- =========================  C8  ========================= -/

/-- C8: the `/api/parks` proxy answers 200 with the upstream JSON when the
upstream fetch succeeds with an ok status, and 500 with a plain-text error
body on a non-ok upstream response or a network exception. -/
theorem parks_proxy_status {α : Type} (u : Upstream α) :
    (∀ v : α, u = .ok (true, .ok v) → GETparks u = (200, ProxyBody.json v)) ∧
    (∀ body : Except String α, u = .ok (false, body) →
      GETparks u = (500, ProxyBody.text "Fetch error")) ∧
    (∀ e : String, u = .error e → GETparks u = (500, ProxyBody.text "Server error")) := by
  refine ⟨fun v h => ?_, fun body h => ?_, fun e h => ?_⟩
  · subst h; rfl
  · subst h; rfl
  · subst h; rfl

/-- Witness for C8 at concrete upstream outcomes. -/
theorem parks_proxy_status_witness :
    GETparks (Except.ok (true, Except.ok 7) : Upstream Nat) = (200, ProxyBody.json 7) ∧
    GETparks (Except.ok (false, Except.ok 7) : Upstream Nat) =
      (500, ProxyBody.text "Fetch error") ∧
    GETparks (Except.error "ECONNRESET" : Upstream Nat) =
      (500, ProxyBody.text "Server error") := by
  refine ⟨?_, ?_, ?_⟩
  · exact (parks_proxy_status _).1 7 rfl
  · exact (parks_proxy_status _).2.1 (Except.ok 7) rfl
  · exact (parks_proxy_status _).2.2 "ECONNRESET" rfl


/- =========================  C10  ========================= -/

lemma enrichTraffic_eq_update {α : Type} (r : TrafficRow α) :
    ∃ x y : Option String,
      enrichTraffic r = { r with latitude := x, longitude := y } := by
  by_cases h1 :
      ((!jsTruthy r.latitude || !jsTruthy r.longitude) && jsTruthyPoint r.point) = true
  · by_cases h2 :
        (jsTruthy (parseTrafficPoint r.point).lat &&
          jsTruthy (parseTrafficPoint r.point).lon) = true
    · refine ⟨(parseTrafficPoint r.point).lat, (parseTrafficPoint r.point).lon, ?_⟩
      simp [enrichTraffic, h1, h2]
    · refine ⟨r.latitude, r.longitude, ?_⟩
      simp [enrichTraffic, h1, h2]
  · refine ⟨r.latitude, r.longitude, ?_⟩
    simp [enrichTraffic, h1]

/-- C10: traffic enrichment preserves the number and order of rows, changes at
most the latitude/longitude of each row, and leaves a row with both
coordinates already (truthily) present entirely unchanged. -/
theorem traffic_enrichment_frame {α : Type} (rows : List (TrafficRow α))
    (r : TrafficRow α) :
    (loadTraffic rows).length = rows.length ∧
    (∀ i : Nat, (loadTraffic rows)[i]? = (rows[i]?).map enrichTraffic) ∧
    (enrichTraffic r).infrastructure = r.infrastructure ∧
    (enrichTraffic r).location_name = r.location_name ∧
    (enrichTraffic r).start_date = r.start_date ∧
    (enrichTraffic r).end_date = r.end_date ∧
    (enrichTraffic r).duration = r.duration ∧
    (enrichTraffic r).geometry = r.geometry ∧
    (enrichTraffic r).the_geom = r.the_geom ∧
    (enrichTraffic r).status = r.status ∧
    (enrichTraffic r).description = r.description ∧
    (enrichTraffic r).activity_type = r.activity_type ∧
    (enrichTraffic r).type_of_closure = r.type_of_closure ∧
    (enrichTraffic r).point = r.point ∧
    (jsTruthy r.latitude = true → jsTruthy r.longitude = true →
      enrichTraffic r = r) := by
  obtain ⟨x, y, he⟩ := enrichTraffic_eq_update r
  refine ⟨List.length_map _ _, fun i => List.getElem?_map .., ?_, ?_, ?_, ?_, ?_,
    ?_, ?_, ?_, ?_, ?_, ?_, ?_, fun h1 h2 => ?_⟩
  · rw [he]
  · rw [he]
  · rw [he]
  · rw [he]
  · rw [he]
  · rw [he]
  · rw [he]
  · rw [he]
  · rw [he]
  · rw [he]
  · rw [he]
  · rw [he]
  · have hc :
        ((!jsTruthy r.latitude || !jsTruthy r.longitude) && jsTruthyPoint r.point) = false := by
      rw [h1, h2]; rfl
    simp [enrichTraffic, hc]

/-- Witness for C10: a row that already has both coordinates passes through
`load` unchanged. -/
theorem traffic_enrichment_frame_witness :
    enrichTraffic ({ latitude := some "53.55", longitude := some "-113.49",
                     point := .str "POINT (0 0)" } : TrafficRow Unit) =
      { latitude := some "53.55", longitude := some "-113.49",
        point := .str "POINT (0 0)" } := by
  exact (traffic_enrichment_frame [] _).2.2.2.2.2.2.2.2.2.2.2.2.2.2
    (by decide) (by decide)

/- =========================  C5  ========================= -/

lemma matchNum_tok_ne_nil {cs tok rest : List Char}
    (h : matchNum cs = some (tok, rest)) : tok ≠ [] := by
  cases cs with
  | nil => simp [matchNum] at h
  | cons c cs =>
    unfold matchNum at h
    by_cases hd : c.isDigit
    · simp only [hd, if_pos] at h
      obtain ⟨h1, _⟩ := Prod.mk.injEq .. ▸ Option.some.injEq .. ▸ h
      intro hcon
      rw [← h1] at hcon
      have : (c :: cs).takeWhile Char.isDigit = c :: cs.takeWhile Char.isDigit := by
        simp [List.takeWhile_cons, hd]
      simp [this] at hcon
    · simp only [hd, if_neg, Bool.false_eq_true, if_false] at h
      by_cases hm : c = '-'
      · simp only [hm, if_pos] at h
        cases cs with
        | nil => simp at h
        | cons d cs2 =>
          by_cases hd2 : d.isDigit
          · simp only [hd2, if_pos] at h
            obtain ⟨h1, _⟩ := Prod.mk.injEq .. ▸ Option.some.injEq .. ▸ h
            intro hcon
            rw [← h1] at hcon
            simp at hcon
          · simp [hd2] at h
      · simp [hm] at h

lemma scanNums_tok_ne_nil :
    ∀ (fuel : Nat) (cs tok : List Char), tok ∈ scanNums fuel cs → tok ≠ [] := by
  intro fuel
  induction fuel with
  | zero => intro cs tok h; simp [scanNums] at h
  | succ n ih =>
    intro cs tok h
    cases cs with
    | nil => simp [scanNums] at h
    | cons c cs =>
      unfold scanNums at h
      rcases hm : matchNum (c :: cs) with _ | ⟨t, rest⟩
      · rw [hm] at h
        exact ih cs tok h
      · rw [hm] at h
        rcases List.mem_cons.mp h with h1 | h1
        · exact h1 ▸ matchNum_tok_ne_nil hm
        · exact ih rest tok h1

lemma jsNumTokens_ne_empty {s t : String} (h : t ∈ jsNumTokens s) : t ≠ "" := by
  unfold jsNumTokens at h
  rcases List.mem_map.mp h with ⟨cs, hm, he⟩
  have hne : cs ≠ [] := scanNums_tok_ne_nil _ _ _ hm
  intro hcon
  rw [← he] at hcon
  exact hne (by simpa [String.ext_iff] using hcon)

/-- C5: for a traffic row whose `point` is a string with at least two numeric
tokens and whose explicit latitude/longitude are missing, enrichment takes the
first token as longitude and the second as latitude. -/
theorem traffic_point_string_normalization {α : Type} (r : TrafficRow α)
    (s t0 t1 : String) (rest : List String)
    (hpt : r.point = .str s)
    (hlat : r.latitude = none) (hlon : r.longitude = none)
    (htok : jsNumTokens s = t0 :: t1 :: rest) :
    (enrichTraffic r).latitude = some t1 ∧
    (enrichTraffic r).longitude = some t0 := by
  have hs : s ≠ "" := by
    intro hcon
    rw [hcon] at htok
    simp [jsNumTokens, scanNums] at htok
  have ht0 : t0 ≠ "" := jsNumTokens_ne_empty (htok ▸ List.mem_cons_self _ _)
  have ht1 : t1 ≠ "" :=
    jsNumTokens_ne_empty (htok ▸ List.mem_cons_of_mem _ (List.mem_cons_self _ _))
  have hparse : parseTrafficPoint (PointLike.str s) = { lat := some t1, lon := some t0 } := by
    simp [parseTrafficPoint, hs, htok]
  constructor <;>
    simp [enrichTraffic, hlat, hlon, hpt, jsTruthy, jsTruthyPoint, hs, hparse, ht0, ht1]

/-- Witness for C5: the scenario of the specification, `point =
"POINT (-113.49 53.55)"` with no explicit coordinates, normalizes to latitude
`"53.55"` and longitude `"-113.49"`. -/
theorem traffic_point_string_normalization_witness :
    (enrichTraffic ({ point := .str "POINT (-113.49 53.55)" } : TrafficRow Unit)).latitude =
      some "53.55" ∧
    (enrichTraffic ({ point := .str "POINT (-113.49 53.55)" } : TrafficRow Unit)).longitude =
      some "-113.49" := by
  exact traffic_point_string_normalization _ "POINT (-113.49 53.55)" "-113.49" "53.55" []
    rfl rfl rfl (by decide)

/- =========================  C1  ========================= -/

lemma dedupeByGo_sublist {ρ : Type} (key : ρ → String) :
    ∀ (seen : List String) (rows : List ρ), (dedupeByGo key seen rows).Sublist rows := by
  intro seen rows
  induction rows generalizing seen with
  | nil => simp [dedupeByGo]
  | cons r rs ih =>
    unfold dedupeByGo
    by_cases h : key r ∈ seen
    · simp only [h, if_pos]
      exact (ih seen).cons r
    · simp only [h, if_neg, not_false_iff]
      exact (ih (key r :: seen)).cons₂ r

lemma dedupeByGo_not_seen {ρ : Type} (key : ρ → String) :
    ∀ (seen : List String) (rows : List ρ) (r : ρ),
      r ∈ dedupeByGo key seen rows → key r ∉ seen := by
  intro seen rows
  induction rows generalizing seen with
  | nil => intro r h; simp [dedupeByGo] at h
  | cons q rs ih =>
    intro r h
    unfold dedupeByGo at h
    by_cases hq : key q ∈ seen
    · simp only [hq, if_pos] at h
      exact ih seen r h
    · simp only [hq, if_neg, not_false_iff] at h
      rcases List.mem_cons.mp h with h1 | h1
      · rw [h1]; exact hq
      · have := ih (key q :: seen) r h1
        exact fun hcon => this (List.mem_cons_of_mem _ hcon)

lemma dedupeByGo_keys_nodup {ρ : Type} (key : ρ → String) :
    ∀ (seen : List String) (rows : List ρ),
      ((dedupeByGo key seen rows).map key).Nodup := by
  intro seen rows
  induction rows generalizing seen with
  | nil => simp [dedupeByGo]
  | cons q rs ih =>
    unfold dedupeByGo
    by_cases hq : key q ∈ seen
    · simp only [hq, if_pos]
      exact ih seen
    · simp only [hq, if_neg, not_false_iff, List.map_cons]
      refine List.nodup_cons.mpr ⟨?_, ih (key q :: seen)⟩
      intro hcon
      rcases List.mem_map.mp hcon with ⟨r, hr, hkr⟩
      have := dedupeByGo_not_seen key (key q :: seen) rs r hr
      exact this (hkr ▸ List.mem_cons_self _ _)

lemma dedupeByGo_covers {ρ : Type} (key : ρ → String) :
    ∀ (seen : List String) (rows : List ρ) (r : ρ), r ∈ rows →
      key r ∈ seen ∨ key r ∈ (dedupeByGo key seen rows).map key := by
  intro seen rows
  induction rows generalizing seen with
  | nil => intro r h; simp at h
  | cons q rs ih =>
    intro r h
    unfold dedupeByGo
    rcases List.mem_cons.mp h with h1 | h1
    · subst h1
      by_cases hq : key r ∈ seen
      · exact Or.inl hq
      · simp only [hq, if_neg, not_false_iff, List.map_cons]
        exact Or.inr (List.mem_cons_self _ _)
    · by_cases hq : key q ∈ seen
      · simp only [hq, if_pos]
        exact ih seen r h1
      · simp only [hq, if_neg, not_false_iff, List.map_cons]
        rcases ih (key q :: seen) r h1 with h2 | h2
        · rcases List.mem_cons.mp h2 with h3 | h3
          · exact Or.inr (h3 ▸ List.mem_cons_self _ _)
          · exact Or.inl h3
        · exact Or.inr (List.mem_cons_of_mem _ h2)

lemma dedupeByGo_first {ρ : Type} (key : ρ → String) :
    ∀ (seen : List String) (rows : List ρ) (r : ρ), r ∈ dedupeByGo key seen rows →
      rows.find? (fun q => key q == key r) = some r := by
  intro seen rows
  induction rows generalizing seen with
  | nil => intro r h; simp [dedupeByGo] at h
  | cons q rs ih =>
    intro r h
    unfold dedupeByGo at h
    by_cases hq : key q ∈ seen
    · simp only [hq, if_pos] at h
      have hne : key q ≠ key r := by
        intro hcon
        exact dedupeByGo_not_seen key seen rs r h (hcon ▸ hq)
      rw [List.find?_cons_of_neg _ (by simpa using hne)]
      exact ih seen r h
    · simp only [hq, if_neg, not_false_iff] at h
      rcases List.mem_cons.mp h with h1 | h1
      · subst h1
        rw [List.find?_cons_of_pos _ (by simp)]
      · have hnotin := dedupeByGo_not_seen key (key q :: seen) rs r h1
        have hne : key q ≠ key r := by
          intro hcon
          exact hnotin (hcon ▸ List.mem_cons_self _ _)
        rw [List.find?_cons_of_neg _ (by simpa using hne)]
        exact ih (key q :: seen) r h1

/-- C1: for each dataset kind, the dedupe stage keeps a subsequence of the
input whose (trimmed, lower-cased long-text) keys are pairwise distinct, loses
no key, and keeps for each key exactly the first record of the input with that
key; the sorted output is a permutation of the deduped records that is
non-decreasing in the case-insensitive (lower-cased) long-text field. -/
theorem dedupe_sort_stage_spec {α : Type} (trailRows : List (TrailRow α))
    (trafficRows : List (TrafficRow α)) :
    ((dedupeBy trailDKey trailRows).Sublist trailRows) ∧
    (((dedupeBy trailDKey trailRows).map trailDKey).Nodup) ∧
    (∀ r ∈ trailRows, trailDKey r ∈ (dedupeBy trailDKey trailRows).map trailDKey) ∧
    (∀ r ∈ dedupeBy trailDKey trailRows,
      trailRows.find? (fun q => trailDKey q == trailDKey r) = some r) ∧
    ((itemsTrail trailRows).Perm (dedupeBy trailDKey trailRows)) ∧
    ((itemsTrail trailRows).Sorted (keyLE trailSKey)) ∧
    ((dedupeBy trafficDKey trafficRows).Sublist trafficRows) ∧
    (((dedupeBy trafficDKey trafficRows).map trafficDKey).Nodup) ∧
    (∀ r ∈ trafficRows, trafficDKey r ∈ (dedupeBy trafficDKey trafficRows).map trafficDKey) ∧
    (∀ r ∈ dedupeBy trafficDKey trafficRows,
      trafficRows.find? (fun q => trafficDKey q == trafficDKey r) = some r) ∧
    ((itemsTraffic trafficRows).Perm (dedupeBy trafficDKey trafficRows)) ∧
    ((itemsTraffic trafficRows).Sorted (keyLE trafficSKey)) := by
  refine ⟨dedupeByGo_sublist _ _ _, dedupeByGo_keys_nodup _ _ _, ?_,
    fun r hr => dedupeByGo_first _ _ _ r hr,
    List.perm_insertionSort _ _, List.sorted_insertionSort _ _,
    dedupeByGo_sublist _ _ _, dedupeByGo_keys_nodup _ _ _, ?_,
    fun r hr => dedupeByGo_first _ _ _ r hr,
    List.perm_insertionSort _ _, List.sorted_insertionSort _ _⟩
  · intro r hr
    rcases dedupeByGo_covers trailDKey [] trailRows r hr with h | h
    · simp at h
    · exact h
  · intro r hr
    rcases dedupeByGo_covers trafficDKey [] trafficRows r hr with h | h
    · simp at h
    · exact h

/-- Witness for C1 at a concrete two-row input whose keys agree up to case and
whitespace: the first occurrence is the one `find?` locates, and it is the
record the dedupe stage keeps. -/
theorem dedupe_sort_stage_spec_witness :
    [({ details := some "Path washout" } : TrailRow Unit),
      { details := some " PATH WASHOUT " }].find?
      (fun q => trailDKey q == trailDKey ({ details := some " PATH WASHOUT " } : TrailRow Unit)) =
      some { details := some "Path washout" } := by
  have h := (dedupe_sort_stage_spec
    [({ details := some "Path washout" } : TrailRow Unit),
      { details := some " PATH WASHOUT " }] ([] : List (TrafficRow Unit))).2.2.2.1
  have h2 := h { details := some "Path washout" } (by decide)
  have hk : trailDKey ({ details := some "Path washout" } : TrailRow Unit) =
      trailDKey ({ details := some " PATH WASHOUT " } : TrailRow Unit) := by decide
  rw [← hk]
  exact h2

/- =========================  C4  ========================= -/

lemma queryName_ne_empty {o : FetchOutcome} {n : String}
    (h : queryName o = some n) : n ≠ "" := by
  cases o with
  | err => simp [queryName] at h
  | notOk => simp [queryName] at h
  | ok rows =>
    unfold queryName at h
    rcases rows with _ | ⟨row, rest⟩
    · simp at h
    · rcases row with ⟨dn⟩
      rcases dn with _ | n0
      · simp at h
      · by_cases ht : jsTrim n0 = ""
        · simp [ht] at h
        · simp only [List.head?_cons, ht, if_neg, not_false_iff] at h
          injection h with h3
          rw [← h3]
          exact ht

/-- Every name a successful query yields is the trim of some raw name. -/
lemma queryName_is_trimmed {o : FetchOutcome} {n : String}
    (h : queryName o = some n) : ∃ n0 : String, n = jsTrim n0 := by
  cases o with
  | err => simp [queryName] at h
  | notOk => simp [queryName] at h
  | ok rows =>
    unfold queryName at h
    rcases rows with _ | ⟨row, rest⟩
    · simp at h
    · rcases row with ⟨dn⟩
      rcases dn with _ | n0
      · simp at h
      · by_cases ht : jsTrim n0 = ""
        · simp [ht] at h
        · simp only [List.head?_cons, ht, if_neg, not_false_iff] at h
          injection h with h3
          exact ⟨n0, h3.symm⟩

lemma cacheGet_cacheSet (c : Cache) (k k2 v : String) :
    cacheGet (cacheSet c k v) k2 = if k2 = k then some v else cacheGet c k2 := by
  by_cases hk : k2 = k
  · subst hk
    simp [cacheGet, cacheSet, List.lookup]
  · have hb : (k2 == k) = false := by simpa using hk
    simp [cacheGet, cacheSet, List.lookup, hb, hk]

lemma fetchNeighbourhoodName_hit (c : Cache) (lat lon v : String)
    (o1 o2 : FetchOutcome)
    (h : cacheGet c (lat ++ "," ++ lon) = some v) (hv : v ≠ "") :
    fetchNeighbourhoodName c lat lon o1 o2 = (v, c, 0) := by
  simp only [fetchNeighbourhoodName]
  rw [h]
  simp [hv]

lemma fetchNeighbourhoodName_miss (c : Cache) (lat lon : String)
    (o1 o2 : FetchOutcome)
    (h : cacheGet c (lat ++ "," ++ lon) = none) :
    fetchNeighbourhoodName c lat lon o1 o2 =
      match queryName o1 with
      | some n => (n, cacheSet c (lat ++ "," ++ lon) n, 1)
      | none =>
        match queryName o2 with
        | some n => (n, cacheSet c (lat ++ "," ++ lon) n, 2)
        | none => (NO_LOC, cacheSet c (lat ++ "," ++ lon) NO_LOC, 2) := by
  simp only [fetchNeighbourhoodName]
  rw [h]

/-- The stored/returned value of a miss is non-empty, and the miss result
caches the returned value under the key. -/
lemma fetchNeighbourhoodName_miss_shape (c : Cache) (lat lon : String)
    (o1 o2 : FetchOutcome)
    (h : cacheGet c (lat ++ "," ++ lon) = none) :
    (fetchNeighbourhoodName c lat lon o1 o2).1 ≠ "" ∧
    (fetchNeighbourhoodName c lat lon o1 o2).2.1 =
      cacheSet c (lat ++ "," ++ lon) (fetchNeighbourhoodName c lat lon o1 o2).1 ∧
    ((fetchNeighbourhoodName c lat lon o1 o2).1 = "N/A" ∨
      ∃ n0 : String, (fetchNeighbourhoodName c lat lon o1 o2).1 = jsTrim n0) := by
  rw [fetchNeighbourhoodName_miss c lat lon o1 o2 h]
  rcases h1 : queryName o1 with _ | n
  · rcases h2 : queryName o2 with _ | n
    · exact ⟨by simp [NO_LOC], rfl, Or.inl rfl⟩
    · exact ⟨queryName_ne_empty h2, rfl, Or.inr (queryName_is_trimmed h2)⟩
  · exact ⟨queryName_ne_empty h1, rfl, Or.inr (queryName_is_trimmed h1)⟩

/-- C4: on a cache miss the resolver issues at most two queries, returns the
first non-empty name found (one request when the first query yields it, two
otherwise), falls back to the sentinel `"N/A"` when both queries are
exhausted, caches whatever it returns under the `"lat,lon"` key, and a
subsequent call for the same coordinate returns the cached value with zero
requests, whatever the network would then answer. -/
theorem reverse_geocode_resolver_spec (c : Cache) (lat lon : String)
    (o1 o2 : FetchOutcome)
    (hmiss : cacheGet c (lat ++ "," ++ lon) = none) :
    (∀ n, queryName o1 = some n →
      fetchNeighbourhoodName c lat lon o1 o2 =
        (n, cacheSet c (lat ++ "," ++ lon) n, 1)) ∧
    (queryName o1 = none → ∀ n, queryName o2 = some n →
      fetchNeighbourhoodName c lat lon o1 o2 =
        (n, cacheSet c (lat ++ "," ++ lon) n, 2)) ∧
    (queryName o1 = none → queryName o2 = none →
      fetchNeighbourhoodName c lat lon o1 o2 =
        ("N/A", cacheSet c (lat ++ "," ++ lon) "N/A", 2)) ∧
    ((fetchNeighbourhoodName c lat lon o1 o2).2.2 ≤ 2) ∧
    (cacheGet (fetchNeighbourhoodName c lat lon o1 o2).2.1 (lat ++ "," ++ lon) =
      some (fetchNeighbourhoodName c lat lon o1 o2).1) ∧
    (∀ o3 o4, fetchNeighbourhoodName (fetchNeighbourhoodName c lat lon o1 o2).2.1
        lat lon o3 o4 =
      ((fetchNeighbourhoodName c lat lon o1 o2).1,
        (fetchNeighbourhoodName c lat lon o1 o2).2.1, 0)) := by
  obtain ⟨hne, hset, _⟩ := fetchNeighbourhoodName_miss_shape c lat lon o1 o2 hmiss
  have hcached : cacheGet (fetchNeighbourhoodName c lat lon o1 o2).2.1
      (lat ++ "," ++ lon) = some (fetchNeighbourhoodName c lat lon o1 o2).1 := by
    rw [hset, cacheGet_cacheSet]
    simp
  refine ⟨fun n h1 => ?_, fun h1 n h2 => ?_, fun h1 h2 => ?_, ?_, hcached,
    fun o3 o4 => fetchNeighbourhoodName_hit _ _ _ _ o3 o4 hcached hne⟩
  · rw [fetchNeighbourhoodName_miss c lat lon o1 o2 hmiss, h1]
  · rw [fetchNeighbourhoodName_miss c lat lon o1 o2 hmiss, h1, h2]
  · rw [fetchNeighbourhoodName_miss c lat lon o1 o2 hmiss, h1, h2]
    rfl
  · rw [fetchNeighbourhoodName_miss c lat lon o1 o2 hmiss]
    rcases h1 : queryName o1 with _ | n
    · rcases h2 : queryName o2 with _ | n <;> simp
    · simp

/-- Witness for C4: with an empty cache and both queries failing, the resolver
returns and caches `"N/A"` with two requests, and a second call for the same
coordinate answers `"N/A"` from the cache with zero requests. -/
theorem reverse_geocode_resolver_spec_witness :
    fetchNeighbourhoodName [] "53.55" "-113.49" .err .err =
      ("N/A", [("53.55,-113.49", "N/A")], 2) ∧
    fetchNeighbourhoodName [("53.55,-113.49", "N/A")] "53.55" "-113.49"
        (.ok [{ descriptive_name := some "Oliver" }]) .err =
      ("N/A", [("53.55,-113.49", "N/A")], 0) := by
  have h := reverse_geocode_resolver_spec [] "53.55" "-113.49" .err .err rfl
  constructor
  · exact h.2.2.1 rfl rfl
  · have h6 := h.2.2.2.2.2 (.ok [{ descriptive_name := some "Oliver" }]) .err
    rw [h.2.2.1 rfl rfl] at h6
    exact h6

/- =========================  C9  ========================= -/

/-- C9: every value the resolver stores in the cache is non-empty (a trimmed
neighbourhood name or the sentinel `"N/A"`), and keys are write-once: an
existing binding survives any later call unchanged. -/
theorem neighbourhood_cache_invariant (c : Cache) (lat lon : String)
    (o1 o2 : FetchOutcome)
    (hwf : ∀ k v : String, cacheGet c k = some v → v ≠ "") :
    (∀ k v : String,
      cacheGet (fetchNeighbourhoodName c lat lon o1 o2).2.1 k = some v → v ≠ "") ∧
    (∀ k v : String,
      cacheGet (fetchNeighbourhoodName c lat lon o1 o2).2.1 k = some v →
        cacheGet c k = some v ∨ v = "N/A" ∨ ∃ n0 : String, v = jsTrim n0) ∧
    (∀ k v : String, cacheGet c k = some v →
      cacheGet (fetchNeighbourhoodName c lat lon o1 o2).2.1 k = some v) := by
  rcases hq : cacheGet c (lat ++ "," ++ lon) with _ | v0
  · obtain ⟨hne, hset, hshape⟩ := fetchNeighbourhoodName_miss_shape c lat lon o1 o2 hq
    refine ⟨fun k v h => ?_, fun k v h => ?_, fun k v h => ?_⟩
    · rw [hset, cacheGet_cacheSet] at h
      by_cases hk : k = lat ++ "," ++ lon
      · rw [if_pos hk] at h
        injection h with h3
        rw [← h3]
        exact hne
      · rw [if_neg hk] at h
        exact hwf k v h
    · rw [hset, cacheGet_cacheSet] at h
      by_cases hk : k = lat ++ "," ++ lon
      · rw [if_pos hk] at h
        injection h with h3
        rw [← h3]
        rcases hshape with h1 | h1
        · exact Or.inr (Or.inl h1)
        · exact Or.inr (Or.inr h1)
      · rw [if_neg hk] at h
        exact Or.inl h
    · rw [hset, cacheGet_cacheSet]
      by_cases hk : k = lat ++ "," ++ lon
      · rw [hk, hq] at h
        exact absurd h (by simp)
      · rw [if_neg hk]
        exact h
  · have hv0 : v0 ≠ "" := hwf _ _ hq
    rw [fetchNeighbourhoodName_hit c lat lon v0 o1 o2 hq hv0]
    exact ⟨fun k v h => hwf k v h, fun k v h => Or.inl h, fun k v h => h⟩

/-- Witness for C9: a call on the empty (well-formed) cache stores the trimmed
name it resolved, and the stored value is non-empty. -/
theorem neighbourhood_cache_invariant_witness :
    cacheGet (fetchNeighbourhoodName [] "53.55" "-113.49"
      (.ok [{ descriptive_name := some " Oliver " }]) .err).2.1 "53.55,-113.49" =
      some "Oliver" ∧ ("Oliver" : String) ≠ "" := by
  constructor
  · decide
  · have h := (neighbourhood_cache_invariant [] "53.55" "-113.49"
      (.ok [{ descriptive_name := some " Oliver " }]) .err
      (by intro k v hkv; simp [cacheGet] at hkv)).1
    exact h "53.55,-113.49" "Oliver" (by decide)

/- =========================  concrete fixtures  ========================= -/

/-- A `JSON.parse` model that accepts nothing (no geometry payloads occur in
the concrete scenarios below). -/
def jpUnit : String → Except String Unit := fun _ => Except.error "not parsed"

/-- The initial `neighNames` state (no neighbourhood resolved yet). -/
def nnNone : String → Option String := fun _ => none

/-- The initial `expanded` state (`{}`: no card expanded). -/
def exFalse : String → Bool := fun _ => false

/-- First raw row of the duplicate-details scenario. -/
def rPW1 : TrailRow Unit :=
  { details := some "Path washout", infrastructure := some "Footbridge",
    location_name := some "Mill Creek" }

/-- Second raw row of the duplicate-details scenario: `details` differs from
the first row only in letter case. -/
def rPW2 : TrailRow Unit :=
  { details := some "PATH WASHOUT", infrastructure := some "Boardwalk",
    location_name := some "Rundle Park" }

/- =========================  C6  ========================= -/

/-- C6 counterexample: for dataset kind trail with exactly two raw rows whose
`details` are `"Path washout"` up to letter case, the list view renders TWO
cards, not one — the render maps over the raw rows, not over the deduplicated
`items` memo. -/
theorem trail_duplicate_one_card_counterexample :
    (renderTrailCards jpUnit nnNone exFalse [rPW1, rPW2]).length = 2 ∧
    (renderTrailCards jpUnit nnNone exFalse [rPW1, rPW2]).length ≠ 1 := by
  constructor
  · rfl
  · decide

/-- C6 amended: in that scenario the dedupe+sort stage (`items`) does collapse
the two rows to exactly the first one, and the first rendered card is titled
from the first row's infrastructure/location — but the card list itself
renders one card per raw row, i.e. two cards. -/
theorem trail_duplicate_one_card_amended :
    itemsTrail [rPW1, rPW2] = [rPW1] ∧
    (renderTrailCards jpUnit nnNone exFalse [rPW1, rPW2]).length = 2 ∧
    (renderTrailCards jpUnit nnNone exFalse [rPW1, rPW2]).head? =
      some (cardOfTrail jpUnit nnNone exFalse 0 rPW1) ∧
    (cardOfTrail jpUnit nnNone exFalse 0 rPW1).title = "Footbridge – Mill Creek" := by
  refine ⟨by decide, rfl, rfl, by decide⟩

/- =========================  C7  ========================= -/

/-- A 300-character details text whose 220th character is a space — the
truncation of the source trims the slice, so the collapsed text is NOT the
plain first 220 characters. -/
def longWSText : String := ⟨List.replicate 219 'a' ++ ' ' :: List.replicate 80 'b'⟩

/-- The row carrying `longWSText` as details. -/
def rLongWS : TrailRow Unit := { details := some longWSText }

/-- C7 counterexample: for a 300-character long text whose 220th character is
whitespace, the collapsed render is not the first 220 characters followed by
an ellipsis (the source trims the slice first). -/
theorem truncation_first220_counterexample :
    (cardOfTrail jpUnit nnNone exFalse 0 rLongWS).longText.length = 300 ∧
    (cardOfTrail jpUnit nnNone exFalse 0 rLongWS).isExpanded = false ∧
    (cardOfTrail jpUnit nnNone exFalse 0 rLongWS).shown ≠
      jsSlice (cardOfTrail jpUnit nnNone exFalse 0 rLongWS).longText 220 ++ "…" := by
  refine ⟨by decide, rfl, by decide⟩

lemma mkCard_shown_eq {α : Type} (jp : String → Except String α)
    (nn : String → Option String) (ex : String → Bool) (idx : Nat)
    (i l sd ed du la lo at2 tc : Option String)
    (g tg : GeometryLike α) (t : String) :
    (mkCard jp nn ex idx i l sd ed du la lo at2 tc g tg t).shown =
      if !(mkCard jp nn ex idx i l sd ed du la lo at2 tc g tg t).isExpanded &&
          decide ((mkCard jp nn ex idx i l sd ed du la lo at2 tc g tg t).longText.length > 220)
      then jsTrim (jsSlice (mkCard jp nn ex idx i l sd ed du la lo at2 tc g tg t).longText 220) ++ "…"
      else (mkCard jp nn ex idx i l sd ed du la lo at2 tc g tg t).longText := rfl

lemma mkCard_isExpanded_eq {α : Type} (jp : String → Except String α)
    (nn : String → Option String) (ex : String → Bool) (idx : Nat)
    (i l sd ed du la lo at2 tc : Option String)
    (g tg : GeometryLike α) (t : String) :
    (mkCard jp nn ex idx i l sd ed du la lo at2 tc g tg t).isExpanded =
      ex (mkCard jp nn ex idx i l sd ed du la lo at2 tc g tg t).keyStr := rfl

/-- The card key does not depend on the `expanded` state. -/
lemma mkCard_keyStr_ex_irrel {α : Type} (jp : String → Except String α)
    (nn : String → Option String) (ex ex2 : String → Bool) (idx : Nat)
    (i l sd ed du la lo at2 tc : Option String)
    (g tg : GeometryLike α) (t : String) :
    (mkCard jp nn ex idx i l sd ed du la lo at2 tc g tg t).keyStr =
      (mkCard jp nn ex2 idx i l sd ed du la lo at2 tc g tg t).keyStr := rfl

lemma mkCard_truncation {α : Type} (jp : String → Except String α)
    (nn : String → Option String) (ex : String → Bool) (idx : Nat)
    (i l sd ed du la lo at2 tc : Option String)
    (g tg : GeometryLike α) (t : String)
    (h : (mkCard jp nn ex idx i l sd ed du la lo at2 tc g tg t).longText.length > 220) :
    (mkCard jp nn ex idx i l sd ed du la lo at2 tc g tg t).hasToggle = true ∧
    ((mkCard jp nn ex idx i l sd ed du la lo at2 tc g tg t).isExpanded = false →
      (mkCard jp nn ex idx i l sd ed du la lo at2 tc g tg t).shown =
        jsTrim (jsSlice (mkCard jp nn ex idx i l sd ed du la lo at2 tc g tg t).longText 220)
          ++ "…") ∧
    ((mkCard jp nn ex idx i l sd ed du la lo at2 tc g tg t).isExpanded = true →
      (mkCard jp nn ex idx i l sd ed du la lo at2 tc g tg t).shown =
        (mkCard jp nn ex idx i l sd ed du la lo at2 tc g tg t).longText) ∧
    (ex (mkCard jp nn ex idx i l sd ed du la lo at2 tc g tg t).keyStr = false →
      (mkCard jp nn
          (toggleExpand ex (mkCard jp nn ex idx i l sd ed du la lo at2 tc g tg t).keyStr)
          idx i l sd ed du la lo at2 tc g tg t).shown =
        (mkCard jp nn ex idx i l sd ed du la lo at2 tc g tg t).longText) := by
  refine ⟨decide_eq_true h, fun hexp => ?_, fun hexp => ?_, fun hexp => ?_⟩
  · rw [mkCard_shown_eq, hexp]
    simp [h]
  · rw [mkCard_shown_eq, hexp]
    simp
  · rw [mkCard_shown_eq, mkCard_isExpanded_eq]
    rw [mkCard_keyStr_ex_irrel jp nn
      (toggleExpand ex (mkCard jp nn ex idx i l sd ed du la lo at2 tc g tg t).keyStr) ex]
    have htog : toggleExpand ex
        (mkCard jp nn ex idx i l sd ed du la lo at2 tc g tg t).keyStr
        (mkCard jp nn ex idx i l sd ed du la lo at2 tc g tg t).keyStr = true := by
      simp [toggleExpand, hexp]
    rw [htog]
    simp only [Bool.not_true, Bool.false_and, if_false, Bool.false_eq_true]
    rfl

/-- C7 amended: for every card whose long text exceeds 220 characters, the
collapsed render shows the first 220 characters with surrounding whitespace
trimmed, followed by an ellipsis, together with a toggle; the expanded render
(and the render after activating the toggle from the collapsed state) shows
the full text — for both the trail and the traffic card. -/
theorem truncation_and_toggle_amended {α : Type} (jp : String → Except String α)
    (nn : String → Option String) (ex : String → Bool) (idx : Nat)
    (r : TrailRow α) (r2 : TrafficRow α) :
    ((cardOfTrail jp nn ex idx r).longText.length > 220 →
      (cardOfTrail jp nn ex idx r).hasToggle = true ∧
      ((cardOfTrail jp nn ex idx r).isExpanded = false →
        (cardOfTrail jp nn ex idx r).shown =
          jsTrim (jsSlice (cardOfTrail jp nn ex idx r).longText 220) ++ "…") ∧
      ((cardOfTrail jp nn ex idx r).isExpanded = true →
        (cardOfTrail jp nn ex idx r).shown = (cardOfTrail jp nn ex idx r).longText) ∧
      (ex (cardOfTrail jp nn ex idx r).keyStr = false →
        (cardOfTrail jp nn (toggleExpand ex (cardOfTrail jp nn ex idx r).keyStr) idx r).shown =
          (cardOfTrail jp nn ex idx r).longText)) ∧
    ((cardOfTraffic jp nn ex idx r2).longText.length > 220 →
      (cardOfTraffic jp nn ex idx r2).hasToggle = true ∧
      ((cardOfTraffic jp nn ex idx r2).isExpanded = false →
        (cardOfTraffic jp nn ex idx r2).shown =
          jsTrim (jsSlice (cardOfTraffic jp nn ex idx r2).longText 220) ++ "…") ∧
      ((cardOfTraffic jp nn ex idx r2).isExpanded = true →
        (cardOfTraffic jp nn ex idx r2).shown = (cardOfTraffic jp nn ex idx r2).longText) ∧
      (ex (cardOfTraffic jp nn ex idx r2).keyStr = false →
        (cardOfTraffic jp nn (toggleExpand ex (cardOfTraffic jp nn ex idx r2).keyStr) idx r2).shown =
          (cardOfTraffic jp nn ex idx r2).longText)) := by
  constructor
  · intro h
    exact mkCard_truncation jp nn ex idx r.infrastructure r.location_name
      r.start_date r.end_date r.duration r.latitude r.longitude r.activity_type
      r.type_of_closure r.geometry r.the_geom (jsOr r.details "") h
  · intro h
    exact mkCard_truncation jp nn ex idx r2.infrastructure r2.location_name
      r2.start_date r2.end_date r2.duration r2.latitude r2.longitude r2.activity_type
      r2.type_of_closure r2.geometry r2.the_geom (jsOr r2.description "") h

/-- Witness for C7 (amended) at the 300-character scenario of the spec: the
collapsed card shows 220 characters plus an ellipsis, and after activating the
toggle the card shows all 300 characters. -/
theorem truncation_and_toggle_amended_witness :
    (cardOfTrail jpUnit nnNone exFalse 0
      ({ details := some ⟨List.replicate 300 'a'⟩ } : TrailRow Unit)).shown =
      (⟨List.replicate 220 'a'⟩ : String) ++ "…" ∧
    (cardOfTrail jpUnit nnNone
      (toggleExpand exFalse (cardOfTrail jpUnit nnNone exFalse 0
        ({ details := some ⟨List.replicate 300 'a'⟩ } : TrailRow Unit)).keyStr) 0
      ({ details := some ⟨List.replicate 300 'a'⟩ } : TrailRow Unit)).shown =
      (⟨List.replicate 300 'a'⟩ : String) := by
  have h := (truncation_and_toggle_amended jpUnit nnNone exFalse 0
    ({ details := some ⟨List.replicate 300 'a'⟩ } : TrailRow Unit)
    ({} : TrafficRow Unit)).1 (by decide)
  obtain ⟨-, hcol, -, htog⟩ := h
  constructor
  · rw [hcol rfl]
    decide
  · rw [htog rfl]
    decide
